import Mathlib

/-
Verification development for the retro-vinyls-server repository.

The file shallowly embeds src/index.js: the database connection lifecycle
(connectToDatabase, isDatabaseConnected, the module-level globals client,
db and isConnected) and the Express route handlers for /, /health,
POST /api/seed, GET /api/items, GET /api/items/:id and POST /api/items,
together with the 404 and global error handlers.

JavaScript values that flow through the request payloads are modelled by
the inductive JSValue (undefined, null, NaN, booleans, finite numbers as
rationals, strings, dates and ObjectIds).  JavaScript number comparisons
involving NaN are false, matching the runtime.  Asynchronous execution is
modelled by a small-step machine: each in-flight call of connectToDatabase
is a program counter that advances one awaited operation at a time while
mutating the shared module state, and a schedule chooses which caller runs
next, exactly as the single-threaded event loop does.
-/

namespace Retro

/-- JavaScript runtime values appearing in request payloads and stored
documents.  Finite numbers are rationals; NaN is a separate constructor
because every ordered comparison against it is false. -/
inductive JSValue where
  | undef
  | nullv
  | nan
  | bool (b : Bool)
  | num (q : Rat)
  | str (s : String)
  | date (t : Nat)
  | oid (s : String)
deriving DecidableEq

/-- JavaScript truthiness: undefined, null, NaN, false, 0 and the empty
string are falsy, everything else (objects included) is truthy. -/
def jsTruthy : JSValue → Bool
  | .undef => false
  | .nullv => false
  | .nan => false
  | .bool b => b
  | .num q => decide (q ≠ 0)
  | .str s => decide (s ≠ "")
  | .date _ => true
  | .oid _ => true

/-- typeof v === "number" (NaN is a number in JavaScript). -/
def jsIsNumber : JSValue → Bool
  | .num _ => true
  | .nan => true
  | _ => false

/-- typeof v === "string". -/
def jsIsString : JSValue → Bool
  | .str _ => true
  | _ => false

/-- v <= c for a number constant c; false when v is not a finite number,
matching the JavaScript comparison semantics for NaN. -/
def numLe (v : JSValue) (c : Rat) : Bool :=
  match v with
  | .num q => decide (q ≤ c)
  | _ => false

/-- v < c, false for NaN and non-numbers. -/
def numLt (v : JSValue) (c : Rat) : Bool :=
  match v with
  | .num q => decide (q < c)
  | _ => false

/-- v > c, false for NaN and non-numbers. -/
def numGt (v : JSValue) (c : Rat) : Bool :=
  match v with
  | .num q => decide (c < q)
  | _ => false

/-- s.trim(): strip leading and trailing whitespace (computed on the
character list so that it evaluates inside the kernel). -/
def jsStrTrim (s : String) : String :=
  ⟨((s.data.dropWhile Char.isWhitespace).reverse.dropWhile Char.isWhitespace).reverse⟩

/-- s.toLowerCase() restricted to what ObjectId normalisation needs. -/
def strLower (s : String) : String :=
  ⟨s.data.map Char.toLower⟩

/-- v.trim(): defined for strings, a TypeError (None) otherwise. -/
def jsTrim : JSValue → Option String
  | .str s => some (jsStrTrim s)
  | _ => none

/-- Accumulate decimal digits into a natural number; None when a
non-digit character appears. -/
def parseNatDigits (cs : List Char) : Option Nat :=
  cs.foldl
    (fun acc c =>
      match acc with
      | none => none
      | some n => if c.isDigit then some (n * 10 + (c.toNat - 48)) else none)
    (some 0)

/-- Numeric value of a trimmed nonempty decimal string under the
JavaScript Number coercion: optional sign, digits, optional fractional
part.  None represents NaN. -/
def parseJSNumber (s : String) : Option Rat :=
  let core : List Char → Option Rat := fun ds =>
    let ip := ds.takeWhile Char.isDigit
    let rest := ds.drop ip.length
    match rest with
    | [] =>
        if ip.isEmpty then none
        else (parseNatDigits ip).map (fun n => (n : Rat))
    | '.' :: fp =>
        if fp.all Char.isDigit && !(ip.isEmpty && fp.isEmpty) then
          match parseNatDigits ip, parseNatDigits fp with
          | some n, some f => some ((n : Rat) + (f : Rat) / ((10 : Rat) ^ fp.length))
          | _, _ => none
        else none
    | _ => none
  match s.toList with
  | '-' :: r => (core r).map (fun q => -q)
  | '+' :: r => core r
  | r => core r

/-- Number(v): the JavaScript numeric coercion used by the POST handler
for price, originalPrice, year and rating. -/
def jsToNumber : JSValue → JSValue
  | .undef => .nan
  | .nullv => .num 0
  | .nan => .nan
  | .bool b => .num (if b then 1 else 0)
  | .num q => .num q
  | .str s =>
      let t := jsStrTrim s
      if t = "" then .num 0
      else
        match parseJSNumber t with
        | some q => .num q
        | none => .nan
  | .date t => .num (t : Rat)
  | .oid _ => .nan

/-- A MongoDB document: an ordered list of field name and value pairs. -/
abbrev VDoc := List (String × JSValue)

/-- new ObjectId(s): the ObjectId value denoted by a hex string
(hex digits compare case-insensitively, so the value is normalised). -/
def objectIdOf (s : String) : JSValue := .oid (strLower s)

/-- ObjectId.isValid(s) for string input: 24 hexadecimal characters. -/
def isValidObjectId (s : String) : Bool :=
  s.length == 24 &&
    s.toList.all (fun c => c.isDigit || ('a' ≤ c && c ≤ 'f') || ('A' ≤ c && c ≤ 'F'))

/-- Values appearing in a JSON response body: scalars, an embedded
document, a list of documents, or a list of strings. -/
inductive BodyVal where
  | val (v : JSValue)
  | document (d : VDoc)
  | docList (ds : List VDoc)
  | strList (ss : List String)
deriving DecidableEq

/-- A JSON response body, as an ordered list of keyed values. -/
abbrev Body := List (String × BodyVal)

/-- An HTTP response: status code plus JSON body. -/
structure Resp where
  status : Nat
  body : Body
deriving DecidableEq

/-- The response body carries a top-level timestamp field. -/
def hasTimestamp (r : Resp) : Bool :=
  r.body.any (fun kv => kv.1 == "timestamp")

/-- isDatabaseConnected() from src/index.js lines 86 to 94: the client
global is set, the isConnected flag is set, the client has a topology
object and that topology reports itself connected. -/
def isDatabaseConnected (clientPresent isConn topologyPresent topologyConn : Bool) : Bool :=
  clientPresent && isConn && topologyPresent && topologyConn

/- ----------------------------------------------------------------- -/
/- Connection lifecycle machine (src/index.js lines 22 to 94).        -/
/- ----------------------------------------------------------------- -/

/-- The module-level mutable state of src/index.js: the client global,
the db global, the isConnected flag, a counter supplying identities for
newly constructed MongoClient objects, and the total number of
client.connect() calls that have been started. -/
structure GState where
  client : Option Nat
  db : Option Nat
  isConnected : Bool
  nextId : Nat
  attempts : Nat
deriving DecidableEq

/-- Program counter of one in-flight connectToDatabase() call.  The
function suspends at await client.connect() and at the awaited ping, so
a call is either at its start, waiting for the connect of the client it
created, waiting for a ping issued against whatever client the module
global held when the ping began, or finished with a boolean result. -/
inductive PC where
  | start
  | awaitConnect (cid : Nat)
  | awaitPing (pid : Option Nat)
  | done (r : Bool)
deriving DecidableEq

/-- One event-loop step of a connectToDatabase() call, faithful to
src/index.js lines 54 to 83.  At start the call stores a brand new
client into the module global and begins connecting it.  When the
connect resolves successfully the call pings through the CURRENT module
global (line 65 reads the global again).  When the ping resolves
successfully the call sets db from the current global client and sets
isConnected (lines 68 and 69).  Every failure lands in the catch block,
which only sets isConnected to false (line 78): the client and db
globals are NOT cleared. -/
def connStep (cok pok : Nat → Bool) (g : GState) : PC → GState × PC
  | .start =>
      ({ g with client := some g.nextId, nextId := g.nextId + 1, attempts := g.attempts + 1 },
        .awaitConnect g.nextId)
  | .awaitConnect cid =>
      if cok cid then (g, .awaitPing g.client)
      else ({ g with isConnected := false }, .done false)
  | .awaitPing pid =>
      match pid with
      | some p =>
          if pok p then ({ g with db := g.client, isConnected := true }, .done true)
          else ({ g with isConnected := false }, .done false)
      | none => ({ g with isConnected := false }, .done false)
  | .done r => (g, .done r)

/-- Run one scheduled caller (index i into the list of in-flight calls)
for one step. -/
def connTick (cok pok : Nat → Bool) (g : GState) (cs : List PC) (i : Nat) : GState × List PC :=
  match cs.get? i with
  | none => (g, cs)
  | some pc =>
      let s := connStep cok pok g pc
      (s.1, cs.set i s.2)

/-- Run a schedule of caller indices over the shared state. -/
def connRun (cok pok : Nat → Bool) (sched : List Nat) (g : GState) (cs : List PC) :
    GState × List PC :=
  match sched with
  | [] => (g, cs)
  | i :: rest =>
      let t := connTick cok pok g cs i
      connRun cok pok rest t.1 t.2

/-- The module state at process start: client and db are null and
isConnected is false (src/index.js lines 23 to 25). -/
def connS0 : GState := ⟨none, none, false, 0, 0⟩

/- ----------------------------------------------------------------- -/
/- POST /api/items payload validation (src/index.js lines 435 to 546). -/
/- ----------------------------------------------------------------- -/

/-- The destructured request body of POST /api/items.  A field absent
from the JSON payload destructures to undefined. -/
structure Payload where
  name : JSValue
  artist : JSValue
  description : JSValue
  price : JSValue
  originalPrice : JSValue
  image : JSValue
  genre : JSValue
  year : JSValue
  condition : JSValue
  rating : JSValue
  inStock : JSValue

/-- The requiredFields object of lines 459 to 467, in source order. -/
def requiredPairs (p : Payload) : List (String × JSValue) :=
  [("name", p.name), ("artist", p.artist), ("description", p.description),
    ("price", p.price), ("image", p.image), ("genre", p.genre), ("year", p.year)]

/-- The filter of lines 468 to 472: a field is reported missing when its
value is falsy, or is a string whose trim is empty.  Note that the
number 0 is falsy, so a present numeric 0 counts as missing. -/
def isMissing (v : JSValue) : Bool :=
  !(jsTruthy v) ||
    (match v with
      | .str s => decide (jsStrTrim s = "")
      | _ => false)

/-- The missingFields list of lines 468 to 473, preserving field order. -/
def missingFields (p : Payload) : List String :=
  ((requiredPairs p).filter (fun kv => isMissing kv.2)).map Prod.fst

/-- Outcome of the validation cascade of lines 459 to 507. -/
inductive VErr where
  | missing (fields : List String)
  | badPrice
  | badYear
  | badRating
deriving DecidableEq

/-- The validation cascade of POST /api/items: missing required fields
first (line 475), then price must be a number greater than 0 (line 484),
then year a number between 1900 and the current year (line 491), then
rating a number between 1 and 5 (line 502).  cy is the value of
new Date().getFullYear(). -/
def validateVinyl (cy : Rat) (p : Payload) : Option VErr :=
  if 0 < (missingFields p).length then some (.missing (missingFields p))
  else if !(jsIsNumber p.price) || numLe p.price 0 then some .badPrice
  else if !(jsIsNumber p.year) || numLt p.year 1900 || numGt p.year cy then some .badYear
  else if !(jsIsNumber p.rating) || numLt p.rating 1 || numGt p.rating 5 then some .badRating
  else none

/-- The newVinyl object literal of lines 510 to 524, evaluated after
validation has passed.  The trim calls throw (None) when the field is
not a string; condition defaults through the || operator; inStock is
Boolean(inStock), which is FALSE when the field was omitted; createdAt
and updatedAt are both new Date() at time now. -/
def newVinyl (p : Payload) (now : Nat) : Option VDoc := do
  let nm ← jsTrim p.name
  let ar ← jsTrim p.artist
  let de ← jsTrim p.description
  let im ← jsTrim p.image
  let ge ← jsTrim p.genre
  some [("name", .str nm), ("artist", .str ar), ("description", .str de),
    ("price", jsToNumber p.price),
    ("originalPrice", if jsTruthy p.originalPrice then jsToNumber p.originalPrice else .nullv),
    ("image", .str im), ("genre", .str ge),
    ("year", jsToNumber p.year),
    ("condition", if jsTruthy p.condition then p.condition else .str "Near Mint"),
    ("rating", jsToNumber p.rating),
    ("inStock", .bool (jsTruthy p.inStock)),
    ("createdAt", .date now), ("updatedAt", .date now)]

/- ----------------------------------------------------------------- -/
/- Route handlers.                                                    -/
/- ----------------------------------------------------------------- -/

/-- The 503 body shared by the api routes, with the route-specific
message. -/
def dbErrBody (msg : String) : Body :=
  [("error", .val (.str "Database not connected")), ("message", .val (.str msg))]

/-- The 400 body of GET /api/items/:id for an invalid id (lines 401 to
406). -/
def invalidIdBody : Body :=
  [("error", .val (.str "Invalid ID format")),
    ("message", .val (.str "The provided ID is not a valid MongoDB ObjectId"))]

/-- The 400 bodies of POST /api/items, one per validation failure; the
missing-fields body names the offending fields in its message and in the
missingFields array, the others name the offending field in the error. -/
def postErrBody : VErr → Body
  | .missing m =>
      [("error", .val (.str "Missing required fields")),
        ("message", .val (.str ("The following fields are required: " ++ String.intercalate ", " m))),
        ("missingFields", .strList m)]
  | .badPrice =>
      [("error", .val (.str "Invalid price")),
        ("message", .val (.str "Price must be a positive number"))]
  | .badYear =>
      [("error", .val (.str "Invalid year")),
        ("message", .val (.str "Year must be between 1900 and current year"))]
  | .badRating =>
      [("error", .val (.str "Invalid rating")),
        ("message", .val (.str "Rating must be between 1 and 5"))]

/-- GET /api/items (lines 359 to 383).  connOk is the result of
isDatabaseConnected(). -/
def getItems (connOk : Bool) (db : List VDoc) : Resp :=
  if !connOk then ⟨503, dbErrBody "Cannot fetch items without database connection"⟩
  else
    ⟨200, [("success", .val (.bool true)),
      ("count", .val (.num (db.length : Rat))),
      ("data", .docList db)]⟩

/-- GET /api/items/:id (lines 389 to 429).  The boolean in the result
records whether any database operation (the findOne) was performed. -/
def getItem (connOk : Bool) (id : String) (db : List VDoc) : Resp × Bool :=
  if !connOk then (⟨503, dbErrBody "Cannot fetch item without database connection"⟩, false)
  else if !(isValidObjectId id) then (⟨400, invalidIdBody⟩, false)
  else
    match db.find? (fun x => List.lookup "_id" x == some (objectIdOf id)) with
    | none =>
        (⟨404, [("error", .val (.str "Item not found")),
          ("message", .val (.str ("No vinyl record found with ID: " ++ id)))]⟩, true)
    | some item =>
        (⟨200, [("success", .val (.bool true)), ("data", .document item)]⟩, true)

/-- POST /api/items (lines 435 to 546).  cy is the current calendar
year, now the clock reading for the timestamps, fid the hex of the
ObjectId the driver assigns to the inserted document.  The result is
the response, the collection after the request, and whether any
database operation (the insertOne) was performed.  Validation failures
return before the insert; a trim TypeError is caught by the handler and
produces the 500 body of lines 539 to 545 (the runtime supplies the
exception text). -/
def postItems (cy : Rat) (now : Nat) (fid : String) (connOk : Bool) (p : Payload)
    (db : List VDoc) : Resp × List VDoc × Bool :=
  if !connOk then (⟨503, dbErrBody "Cannot add item without database connection"⟩, db, false)
  else
    match validateVinyl cy p with
    | some e => (⟨400, postErrBody e⟩, db, false)
    | none =>
        match newVinyl p now with
        | none =>
            (⟨500, [("error", .val (.str "Failed to add item")),
              ("message", .val (.str "value.trim is not a function"))]⟩, db, false)
        | some d =>
            let stored := ("_id", objectIdOf fid) :: d
            (⟨201, [("success", .val (.bool true)),
              ("message", .val (.str "Vinyl record added successfully")),
              ("data", .document stored)]⟩, db ++ [stored], true)

/- ----------------------------------------------------------------- -/
/- POST /api/seed (src/index.js lines 194 to 353).                    -/
/- ----------------------------------------------------------------- -/

/-- The sampleVinyls fixture array of lines 195 to 316. -/
def sampleVinyls : List VDoc :=
  [[("name", .str "Abbey Road"), ("artist", .str "The Beatles"),
    ("description", .str "The Beatles\x27 eleventh studio album, recorded at Abbey Road Studios. Features iconic tracks like \x27Come Together\x27 and \x27Here Comes the Sun\x27. This original UK pressing includes the rare misprint on the back cover, making it a true collector\x27s piece."),
    ("price", .num 189.99), ("originalPrice", .num 240.0),
    ("image", .str "https://images.unsplash.com/photo-1493225457124-a3eb161ffa5f?ixlib=rb-4.0.3&auto=format&fit=crop&w=800&q=80"),
    ("genre", .str "Rock"), ("year", .num 1969), ("condition", .str "Near Mint"),
    ("rating", .num 4.9), ("inStock", .bool true)],
   [("name", .str "Kind of Blue"), ("artist", .str "Miles Davis"),
    ("description", .str "Widely considered one of the greatest jazz albums of all time. This first pressing Columbia 6-eye label features the legendary quintet with John Coltrane, Bill Evans, and Cannonball Adderley. A masterpiece of modal jazz in pristine condition."),
    ("price", .num 324.99), ("originalPrice", .num 400.0),
    ("image", .str "https://images.unsplash.com/photo-1571019613454-1cb2f99b2d8b?ixlib=rb-4.0.3&auto=format&fit=crop&w=800&q=80"),
    ("genre", .str "Jazz"), ("year", .num 1959), ("condition", .str "Mint"),
    ("rating", .num 4.8), ("inStock", .bool true)],
   [("name", .str "The Dark Side of the Moon"), ("artist", .str "Pink Floyd"),
    ("description", .str "Pink Floyd\x27s eighth studio album and one of the best-selling albums of all time. This original Harvest pressing features the iconic prism artwork and includes the solid blue triangle. A progressive rock masterpiece with impeccable sound quality."),
    ("price", .num 456.99), ("originalPrice", .num 600.0),
    ("image", .str "https://images.unsplash.com/photo-1493225457124-a3eb161ffa5f?ixlib=rb-4.0.3&auto=format&fit=crop&w=800&q=80"),
    ("genre", .str "Progressive Rock"), ("year", .num 1973), ("condition", .str "Mint"),
    ("rating", .num 5.0), ("inStock", .bool true)],
   [("name", .str "What\x27s Going On"), ("artist", .str "Marvin Gaye"),
    ("description", .str "Marvin Gaye\x27s socially conscious masterpiece addressing war, poverty, and environmental issues. This Tamla original pressing with gatefold sleeve intact represents soul music at its finest. A powerful statement that remains relevant today."),
    ("price", .num 198.99), ("originalPrice", .num 260.0),
    ("image", .str "https://images.unsplash.com/photo-1571019613454-1cb2f99b2d8b?ixlib=rb-4.0.3&auto=format&fit=crop&w=800&q=80"),
    ("genre", .str "Soul"), ("year", .num 1971), ("condition", .str "Very Good+"),
    ("rating", .num 4.7), ("inStock", .bool true)],
   [("name", .str "Pet Sounds"), ("artist", .str "The Beach Boys"),
    ("description", .str "Brian Wilson\x27s ambitious and influential album that pushed the boundaries of pop music. This Capitol mono pressing showcases the legendary production techniques and orchestral arrangements that inspired The Beatles\x27 Sgt. Pepper\x27s."),
    ("price", .num 342.99), ("originalPrice", .num 450.0),
    ("image", .str "https://images.unsplash.com/photo-1493225457124-a3eb161ffa5f?ixlib=rb-4.0.3&auto=format&fit=crop&w=800&q=80"),
    ("genre", .str "Pop"), ("year", .num 1966), ("condition", .str "Near Mint"),
    ("rating", .num 4.9), ("inStock", .bool true)],
   [("name", .str "Blue Train"), ("artist", .str "John Coltrane"),
    ("description", .str "John Coltrane\x27s only album as leader for Blue Note Records. This original pressing with Van Gelder stamp features the legendary saxophonist with Lee Morgan, Curtis Fuller, and Kenny Drew. A hard bop classic in excellent condition."),
    ("price", .num 289.99), ("originalPrice", .num 380.0),
    ("image", .str "https://images.unsplash.com/photo-1571019613454-1cb2f99b2d8b?ixlib=rb-4.0.3&auto=format&fit=crop&w=800&q=80"),
    ("genre", .str "Jazz"), ("year", .num 1957), ("condition", .str "Excellent"),
    ("rating", .num 4.8), ("inStock", .bool true)],
   [("name", .str "Rumours"), ("artist", .str "Fleetwood Mac"),
    ("description", .str "One of the best-selling albums of all time, recorded during the band\x27s personal turmoil. This original pressing captures the raw emotion and perfect production that made this album a timeless classic. Features hits like \x27Go Your Own Way\x27 and \x27Dreams\x27."),
    ("price", .num 156.99), ("originalPrice", .num 200.0),
    ("image", .str "https://images.unsplash.com/photo-1493225457124-a3eb161ffa5f?ixlib=rb-4.0.3&auto=format&fit=crop&w=800&q=80"),
    ("genre", .str "Rock"), ("year", .num 1977), ("condition", .str "Very Good+"),
    ("rating", .num 4.6), ("inStock", .bool true)],
   [("name", .str "A Love Supreme"), ("artist", .str "John Coltrane"),
    ("description", .str "Coltrane\x27s spiritual masterpiece and one of the most important jazz albums ever recorded. This original Impulse pressing represents the pinnacle of spiritual jazz. A deeply moving four-part suite that showcases Coltrane\x27s transcendent artistry."),
    ("price", .num 412.99), ("originalPrice", .num 520.0),
    ("image", .str "https://images.unsplash.com/photo-1571019613454-1cb2f99b2d8b?ixlib=rb-4.0.3&auto=format&fit=crop&w=800&q=80"),
    ("genre", .str "Jazz"), ("year", .num 1965), ("condition", .str "Near Mint"),
    ("rating", .num 4.9), ("inStock", .bool true)]]

/-- The collection contents after insertMany(sampleVinyls): each sample
document with the ObjectId the driver assigned (ids gives the hex of the
id assigned to the i-th document). -/
def seededDocs (ids : Nat → String) : List VDoc :=
  ((List.range sampleVinyls.length).zip sampleVinyls).map
    (fun x => ("_id", objectIdOf (ids x.1)) :: x.2)

/-- POST /api/seed (lines 322 to 353).  envMode is the NODE_ENV
deployment configuration; the handler body never reads it, so it is an
unused parameter recording that the behavior is the same in every mode.
When connected, the handler deletes every document and inserts the
sample fixtures, whatever the previous contents were. -/
def seedHandler (envMode : String) (connOk : Bool) (ids : Nat → String)
    (db : List VDoc) : Resp × List VDoc :=
  if !connOk then (⟨503, dbErrBody "Cannot seed data without database connection"⟩, db)
  else
    (⟨200, [("message", .val (.str "Database seeded successfully")),
      ("insertedCount", .val (.num (sampleVinyls.length : Rat))),
      ("insertedIds", .document ((List.range sampleVinyls.length).map
        (fun i => (toString i, objectIdOf (ids i)))))]⟩,
      seededDocs ids)

/- ----------------------------------------------------------------- -/
/- Info, health, 404 and error handlers.                              -/
/- ----------------------------------------------------------------- -/

/-- GET / (lines 133 to 145). -/
def rootHandler (now : Nat) : Resp :=
  ⟨200, [("message", .val (.str "RetroVinyls API is running")),
    ("description", .val (.str "Premium platform for vintage music enthusiasts")),
    ("version", .val (.str "1.0.0")),
    ("status", .val (.str "active")),
    ("timestamp", .val (.date now)),
    ("endpoints", .document [("health", .str "/health"), ("documentation", .str "Coming soon...")])]⟩

/-- GET /health (lines 151 to 192).  now and start are clock readings in
milliseconds; envMode is NODE_ENV with the empty string for unset. -/
def healthHandler (now start : Nat) (dbConnected clientPresent : Bool)
    (dbName envMode : String) (port : Nat) (nodeVersion : String) : Resp :=
  let uptime := (now - start) / 1000
  let fmt := toString (uptime / 3600) ++ "h " ++ toString ((uptime % 3600) / 60) ++ "m " ++
    toString (uptime % 60) ++ "s"
  let dbStatus :=
    if dbConnected then "connected"
    else if clientPresent then "connection_lost"
    else "disconnected"
  let dbDoc : VDoc :=
    [("status", .str dbStatus), ("connected", .bool dbConnected)] ++
      (if dbConnected then
        [("name", .str dbName), ("cluster", .str "RetroVinylsCluster"),
          ("provider", .str "MongoDB Atlas")]
      else [])
  ⟨if dbConnected then 200 else 503,
    [("status", .val (.str "active")),
      ("database", .document dbDoc),
      ("server", .document
        [("uptime", .str fmt), ("uptimeSeconds", .num (uptime : Rat)),
          ("environment", .str (if envMode = "" then "development" else envMode)),
          ("port", .num (port : Rat)), ("nodeVersion", .str nodeVersion)]),
      ("timestamp", .val (.date now))]⟩

/-- The 404 handler for unmatched routes (lines 551 to 558). -/
def notFoundHandler (method url : String) (now : Nat) : Resp :=
  ⟨404, [("error", .val (.str "Route not found")),
    ("message", .val (.str ("The requested endpoint " ++ method ++ " " ++ url ++ " does not exist"))),
    ("availableEndpoints", .strList ["GET /", "GET /health"]),
    ("timestamp", .val (.date now))]⟩

/-- The global error handler (lines 563 to 574). -/
def errorHandler (envMode errMsg : String) (now : Nat) : Resp :=
  ⟨500, [("error", .val (.str "Internal Server Error")),
    ("message", .val (.str (if envMode = "development" then errMsg else "Something went wrong"))),
    ("timestamp", .val (.date now))]⟩

/- ----------------------------------------------------------------- -/
/- Concrete request payloads used in witnesses and counterexamples.   -/
/- ----------------------------------------------------------------- -/

/-- A valid create-item request payload (the README example with a
whole-number price): all required fields present, originalPrice,
condition and inStock omitted (destructured to undefined). -/
def pDark : Payload :=
  ⟨.str "Dark Side of the Moon", .str "Pink Floyd",
    .str "Progressive rock masterpiece", .num 300, .undef,
    .str "https://example.com/image.jpg", .str "Progressive Rock",
    .num 1973, .undef, .num 5, .undef⟩

/-- The document newVinyl builds from pDark at clock reading 0. -/
def dDark : VDoc :=
  [("name", .str "Dark Side of the Moon"), ("artist", .str "Pink Floyd"),
    ("description", .str "Progressive rock masterpiece"), ("price", .num 300),
    ("originalPrice", .nullv), ("image", .str "https://example.com/image.jpg"),
    ("genre", .str "Progressive Rock"), ("year", .num 1973),
    ("condition", .str "Near Mint"), ("rating", .num 5),
    ("inStock", .bool false), ("createdAt", .date 0), ("updatedAt", .date 0)]

/-- A payload whose only defect is a negative price. -/
def pBadPrice : Payload :=
  ⟨.str "X", .str "Y", .str "Z", .num (-5), .undef, .str "I", .str "G",
    .num 1990, .undef, .num 3, .undef⟩

/-- A payload in which price and year are present and equal to the
number 0. -/
def pZero : Payload :=
  ⟨.str "X", .str "Y", .str "Z", .num 0, .undef, .str "I", .str "G",
    .num 0, .undef, .num 3, .undef⟩

/- ----------------------------------------------------------------- -/
/- Theorems.                                                          -/
/- ----------------------------------------------------------------- -/

/-- A find? scan skips a prefix on which the predicate is false. -/
theorem find_skip {α : Type} (f : α → Bool) (l1 l2 : List α)
    (h : ∀ x ∈ l1, f x = false) :
    List.find? f (l1 ++ l2) = List.find? f l2 := by
  induction l1 with
  | nil => simp
  | cons a t ih =>
      have ha : f a = false := h a (List.mem_cons_self a t)
      have ht : ∀ x ∈ t, f x = false := fun x hx => h x (List.mem_cons_of_mem a hx)
      simp [List.find?, ha, ih ht]

/-- C1 counterexample: two callers that both enter connectToDatabase
while no connection exists start TWO underlying connect attempts, not
one, and observe different outcomes.  With client 0 connecting
successfully and client 1 failing, the interleaving start(A), start(B),
resume(A), resume(A), resume(B) ends with two attempts started, caller A
resolved true and caller B resolved false; the claimed de-duplication
(at most one attempt system-wide, same outcome for all callers) is
false. -/
theorem c1_counterexample :
    (connRun (fun n => n == 0) (fun _ => true) [0, 1, 0, 0, 1] connS0
      [PC.start, PC.start]).1.attempts = 2 ∧
    (connRun (fun n => n == 0) (fun _ => true) [0, 1, 0, 0, 1] connS0
      [PC.start, PC.start]).2 = [PC.done true, PC.done false] := by decide

/-- C1 amended: connectToDatabase has no in-flight marker, so every
caller that begins the routine starts its own connect attempt: the
global count of started connect calls grows by exactly one at each
caller's first step and never at any later step.  Concurrent callers
are therefore never de-duplicated and need not observe the same
outcome. -/
theorem c1_one_attempt_per_caller (cok pok : Nat → Bool) (g : GState) (pc : PC) :
    (connStep cok pok g pc).1.attempts =
      g.attempts + (if pc = PC.start then 1 else 0) := by
  cases pc with
  | start => simp [connStep]
  | awaitConnect cid => cases h : cok cid <;> simp [connStep, h]
  | awaitPing pid =>
      cases pid with
      | none => simp [connStep]
      | some p => cases h : pok p <;> simp [connStep, h]
  | done r => simp [connStep]

/-- C2 counterexample: a single failed connect makes the invocation fail
permanently after one try.  With every connect failing, a lone caller
finishes with result false having started exactly one attempt, not the
claimed three tries separated by backoff. -/
theorem c2_counterexample :
    (connRun (fun _ => false) (fun _ => true) [0, 0] connS0 [PC.start]).2
      = [PC.done false] ∧
    (connRun (fun _ => false) (fun _ => true) [0, 0] connS0 [PC.start]).1.attempts = 1 := by
  decide

/-- C2 amended: one invocation of connectToDatabase performs exactly one
connect try and resolves immediately: true when both the connect and
the ping succeed, false as soon as either fails.  There is no retry
counter, no maxRetries bound and no backoff delay in src/index.js. -/
theorem c2_single_try (cok pok : Nat → Bool) :
    (connRun cok pok [0, 0, 0] connS0 [PC.start]).1.attempts = 1 ∧
    (connRun cok pok [0, 0, 0] connS0 [PC.start]).2 = [PC.done (cok 0 && pok 0)] := by
  cases h1 : cok 0 <;> cases h2 : pok 0 <;>
    simp [connRun, connTick, connStep, connS0, h1, h2]

/-- C3 counterexample: after a failed attempt the handles are NOT
cleared.  Starting from a previously connected state (db handle 9) with
the fresh client 10 failing to connect, the catch block leaves the
client global holding the failed client and the db global holding the
stale handle; only the liveness flag is reset. -/
theorem c3_counterexample :
    (connRun (fun _ => false) (fun _ => true) [0, 0]
      ⟨some 9, some 9, true, 10, 0⟩ [PC.start]).2 = [PC.done false] ∧
    (connRun (fun _ => false) (fun _ => true) [0, 0]
      ⟨some 9, some 9, true, 10, 0⟩ [PC.start]).1.client = some 10 ∧
    (connRun (fun _ => false) (fun _ => true) [0, 0]
      ⟨some 9, some 9, true, 10, 0⟩ [PC.start]).1.db = some 9 := by decide

/-- C3 amended: after a complete connectToDatabase invocation the
liveness flag is true exactly when both the connect and the ping
succeeded (so the flag is true only if the most recent ping succeeded),
but on failure the state is not reset: the client global keeps the
newly constructed client and the db global keeps its previous value;
only the flag is set to false. -/
theorem c3_flag_only_reset (cok pok : Nat → Bool) (g : GState) :
    (connRun cok pok [0, 0, 0] g [PC.start]).1.isConnected
      = (cok g.nextId && pok g.nextId) ∧
    (connRun cok pok [0, 0, 0] g [PC.start]).1.client = some g.nextId ∧
    (connRun cok pok [0, 0, 0] g [PC.start]).1.db
      = (if cok g.nextId && pok g.nextId then some g.nextId else g.db) := by
  cases h1 : cok g.nextId <;> cases h2 : pok g.nextId <;>
    simp [connRun, connTick, connStep, h1, h2]

/-- C4 counterexample: in an attempt that succeeds end to end, the
client handle is already stored in the module global after the very
first step, before the connect has resolved and before any ping has
run, contradicting the claim that the client handle is cached only
after the liveness probe succeeded. -/
theorem c4_counterexample :
    (connRun (fun _ => true) (fun _ => true) [0] connS0 [PC.start]).1.client = some 0 ∧
    (connRun (fun _ => true) (fun _ => true) [0] connS0 [PC.start]).1.isConnected = false ∧
    (connRun (fun _ => true) (fun _ => true) [0, 0, 0] connS0 [PC.start]).2
      = [PC.done true] := by decide

/-- C4 amended: the CONNECTED marking (isConnected) and the db handle
are indeed only set once the post-connect ping has succeeded - the flag
is still false after the first and second steps and ends up true exactly
when connect and ping both succeed - but the client handle is stored
into the module global at the start of the attempt, before the connect
and the probe. -/
theorem c4_connected_only_after_ping (cok pok : Nat → Bool) :
    (connRun cok pok [0] connS0 [PC.start]).1.client = some 0 ∧
    (connRun cok pok [0] connS0 [PC.start]).1.isConnected = false ∧
    (connRun cok pok [0] connS0 [PC.start]).1.db = none ∧
    (connRun cok pok [0, 0] connS0 [PC.start]).1.isConnected = false ∧
    (connRun cok pok [0, 0, 0] connS0 [PC.start]).1.isConnected = (cok 0 && pok 0) ∧
    (connRun cok pok [0, 0, 0] connS0 [PC.start]).1.db
      = (if cok 0 && pok 0 then some 0 else none) := by
  cases h1 : cok 0 <;> cases h2 : pok 0 <;>
    simp [connRun, connTick, connStep, connS0, h1, h2]

/-- C5: when the database is connected, a request whose id or payload
fails validation is answered with status 400 (whose body names the
offending field through invalidIdBody or postErrBody) and no database
operation is performed, so the collection is unchanged by the request:
GET /api/items/:id rejects an invalid ObjectId before the findOne, and
POST /api/items rejects a validation failure before the insertOne. -/
theorem c5_validation_before_db :
    (∀ (id : String) (db : List VDoc), isValidObjectId id = false →
        getItem true id db = (⟨400, invalidIdBody⟩, false)) ∧
    (∀ (cy : Rat) (now : Nat) (fid : String) (p : Payload) (db : List VDoc) (e : VErr),
        validateVinyl cy p = some e →
        postItems cy now fid true p db = (⟨400, postErrBody e⟩, db, false)) := by
  constructor
  · intro id db h
    simp [getItem, h]
  · intro cy now fid p db e h
    simp [postItems, h]

/-- C5 witness: the literal id from the spec and a payload with price
minus five, both rejected with 400 and no database access. -/
theorem c5_validation_before_db_witness :
    (isValidObjectId "not-an-object-id" = false ∧
      getItem true "not-an-object-id" [] = (⟨400, invalidIdBody⟩, false)) ∧
    (validateVinyl 2026 pBadPrice = some VErr.badPrice ∧
      postItems 2026 0 "507f1f77bcf86cd799439011" true pBadPrice []
        = (⟨400, postErrBody VErr.badPrice⟩, [], false)) :=
  ⟨⟨by decide, c5_validation_before_db.1 "not-an-object-id" [] (by decide)⟩,
    ⟨by decide,
      c5_validation_before_db.2 2026 0 "507f1f77bcf86cd799439011" pBadPrice []
        VErr.badPrice (by decide)⟩⟩

/-- C6 counterexample: POST /api/seed under the production environment
mode, with a connected database holding one record, answers 200 (not
403) and replaces the collection contents with the sample fixtures: a
database mutation is performed. -/
theorem c6_counterexample :
    (seedHandler "production" true (fun _ => "64a1f0c2e5b3a4d5c6e7f809")
      [[("name", .str "x")]]).1.status = 200 ∧
    (seedHandler "production" true (fun _ => "64a1f0c2e5b3a4d5c6e7f809")
      [[("name", .str "x")]]).2 ≠ [[("name", .str "x")]] :=
  ⟨rfl, by decide⟩

/-- C6 amended: POST /api/seed behaves identically in every environment
mode (the handler never reads NODE_ENV): when connected it deletes all
existing records, inserts the eight sample fixtures and returns 200;
when not connected it returns 503 and leaves the collection unchanged.
There is no production guard and no 403 branch. -/
theorem c6_no_production_guard (envMode : String) (connOk : Bool)
    (ids : Nat → String) (db : List VDoc) :
    seedHandler envMode connOk ids db = seedHandler "development" connOk ids db ∧
    (seedHandler envMode true ids db).1.status = 200 ∧
    (seedHandler envMode true ids db).2 = seededDocs ids ∧
    seedHandler envMode false ids db
      = (⟨503, dbErrBody "Cannot seed data without database connection"⟩, db) :=
  ⟨rfl, rfl, rfl, rfl⟩

/-- C7: a record accepted by POST /api/items with status 201 and stored
under the fresh id fid is returned unchanged by GET /api/items/:id for
that id: the fetched document is exactly the stored one, namely the id
field followed by the newVinyl fields derived from the payload (the
server-assigned id and createdAt/updatedAt timestamps being the only
server-added data). -/
theorem c7_roundtrip (cy : Rat) (now : Nat) (fid : String) (p : Payload)
    (db : List VDoc) (d : VDoc)
    (hval : validateVinyl cy p = none)
    (hnew : newVinyl p now = some d)
    (hid : isValidObjectId fid = true)
    (hfresh : ∀ x ∈ db, (List.lookup "_id" x == some (objectIdOf fid)) = false) :
    postItems cy now fid true p db
      = (⟨201, [("success", .val (.bool true)),
          ("message", .val (.str "Vinyl record added successfully")),
          ("data", .document (("_id", objectIdOf fid) :: d))]⟩,
        db ++ [("_id", objectIdOf fid) :: d], true) ∧
    getItem true fid (db ++ [("_id", objectIdOf fid) :: d])
      = (⟨200, [("success", .val (.bool true)),
          ("data", .document (("_id", objectIdOf fid) :: d))]⟩, true) := by
  constructor
  · simp [postItems, hval, hnew]
  · have hfind : (db ++ [("_id", objectIdOf fid) :: d]).find?
        (fun x => List.lookup "_id" x == some (objectIdOf fid))
        = some (("_id", objectIdOf fid) :: d) := by
      rw [find_skip _ db _ hfresh]
      simp [List.find?, List.lookup]
    simp [getItem, hid, hfind]

/-- C7 witness: the README example payload posted into an empty
collection and fetched back by its assigned id. -/
theorem c7_roundtrip_witness :
    validateVinyl 2026 pDark = none ∧
    newVinyl pDark 0 = some dDark ∧
    isValidObjectId "507f1f77bcf86cd799439011" = true ∧
    (postItems 2026 0 "507f1f77bcf86cd799439011" true pDark []
        = (⟨201, [("success", .val (.bool true)),
            ("message", .val (.str "Vinyl record added successfully")),
            ("data", .document (("_id", objectIdOf "507f1f77bcf86cd799439011") :: dDark))]⟩,
          [("_id", objectIdOf "507f1f77bcf86cd799439011") :: dDark], true) ∧
      getItem true "507f1f77bcf86cd799439011"
          [("_id", objectIdOf "507f1f77bcf86cd799439011") :: dDark]
        = (⟨200, [("success", .val (.bool true)),
            ("data", .document (("_id", objectIdOf "507f1f77bcf86cd799439011") :: dDark))]⟩,
          true)) :=
  ⟨by decide, by decide, by decide,
    c7_roundtrip 2026 0 "507f1f77bcf86cd799439011" pDark [] dDark
      (by decide) (by decide) (by decide) (by intro x hx; simp at hx)⟩

/-- C8: the bug at src/index.js line 521.  For the README example
payload, accepted with 201, the stored record has condition defaulted
to Near Mint as documented, but inStock is stored as FALSE, because
Boolean(undefined) is false, contradicting the documented default of
true for an omitted inStock. -/
theorem c8_instock_default_bug :
    validateVinyl 2026 pDark = none ∧
    (postItems 2026 0 "507f1f77bcf86cd799439011" true pDark []).1.status = 201 ∧
    List.lookup "condition" ((newVinyl pDark 0).getD []) = some (JSValue.str "Near Mint") ∧
    List.lookup "inStock" ((newVinyl pDark 0).getD []) = some (JSValue.bool false) := by
  decide

/-- C9 counterexample: the success response of GET /api/items carries no
timestamp field, so not every JSON response carries one. -/
theorem c9_counterexample :
    (getItems true []).status = 200 ∧ hasTimestamp (getItems true []) = false := by
  decide

/-- C9 amended: the root, health, 404 and global-error responses carry a
top-level timestamp, but none of the api route responses do - neither
the success nor the error bodies of GET /api/items, GET /api/items/:id,
POST /api/items and POST /api/seed contain a timestamp field. -/
theorem c9_timestamp_coverage :
    ∀ (now start port now2 : Nat) (dbConnected clientPresent connOk : Bool)
      (dbName envMode nodeVersion method url errMsg id fid : String)
      (db : List VDoc) (cy : Rat) (p : Payload) (ids : Nat → String),
    hasTimestamp (rootHandler now) = true ∧
    hasTimestamp (healthHandler now start dbConnected clientPresent dbName envMode
      port nodeVersion) = true ∧
    hasTimestamp (notFoundHandler method url now) = true ∧
    hasTimestamp (errorHandler envMode errMsg now) = true ∧
    hasTimestamp (getItems connOk db) = false ∧
    hasTimestamp (getItem connOk id db).1 = false ∧
    hasTimestamp (postItems cy now2 fid connOk p db).1 = false ∧
    hasTimestamp (seedHandler envMode connOk ids db).1 = false := by
  intro now start port now2 dbConnected clientPresent connOk dbName envMode
    nodeVersion method url errMsg id fid db cy p ids
  refine ⟨rfl, rfl, rfl, rfl, ?_, ?_, ?_, ?_⟩
  · cases connOk <;> rfl
  · cases connOk with
    | false => rfl
    | true =>
        cases h : isValidObjectId id with
        | false => simp only [getItem, h]; rfl
        | true =>
            cases h2 : List.find? (fun x => List.lookup "_id" x == some (objectIdOf id)) db with
            | none => simp only [getItem, h, h2]; rfl
            | some item => simp only [getItem, h, h2]; rfl
  · cases connOk with
    | false => rfl
    | true =>
        cases hv : validateVinyl cy p with
        | some e => cases e <;> (simp only [postItems, hv]; rfl)
        | none =>
            cases hn : newVinyl p now2 with
            | none => simp only [postItems, hv, hn]; rfl
            | some d => simp only [postItems, hv, hn]; rfl
  · cases connOk <;> rfl

/-- C10: a present numeric 0 in price or year is treated as a missing
required field: the falsy filter classifies it as absent, so the
request is answered with the Missing required fields response naming
that field, and the field-specific Invalid price or Invalid year branch
is never reached (the validation result is the missing-fields error,
not badPrice or badYear). -/
theorem c10_zero_treated_missing (cy : Rat) (p : Payload) :
    (p.price = JSValue.num 0 →
      validateVinyl cy p = some (VErr.missing (missingFields p)) ∧
        "price" ∈ missingFields p) ∧
    (p.year = JSValue.num 0 →
      validateVinyl cy p = some (VErr.missing (missingFields p)) ∧
        "year" ∈ missingFields p) := by
  have key : ∀ (k : String) (v : JSValue), (k, v) ∈ requiredPairs p →
      isMissing v = true → k ∈ missingFields p := by
    intro k v hm hv
    exact List.mem_map.mpr ⟨(k, v), List.mem_filter.mpr ⟨hm, hv⟩, rfl⟩
  have main : ∀ k, k ∈ missingFields p →
      validateVinyl cy p = some (VErr.missing (missingFields p)) := by
    intro k hk
    have hne : missingFields p ≠ [] := List.ne_nil_of_mem hk
    have hlen : 0 < (missingFields p).length := List.length_pos.mpr hne
    simp [validateVinyl, hlen]
  constructor
  · intro hp
    have hmem : ("price", p.price) ∈ requiredPairs p := by simp [requiredPairs]
    have hin : "price" ∈ missingFields p := key _ _ hmem (by rw [hp]; decide)
    exact ⟨main _ hin, hin⟩
  · intro hy
    have hmem : ("year", p.year) ∈ requiredPairs p := by simp [requiredPairs]
    have hin : "year" ∈ missingFields p := key _ _ hmem (by rw [hy]; decide)
    exact ⟨main _ hin, hin⟩

/-- C10 witness: a payload with price 0 and year 0 is rejected as
missing both fields. -/
theorem c10_zero_treated_missing_witness :
    pZero.price = JSValue.num 0 ∧ pZero.year = JSValue.num 0 ∧
    (validateVinyl 2026 pZero = some (VErr.missing (missingFields pZero)) ∧
      "price" ∈ missingFields pZero) ∧ "year" ∈ missingFields pZero :=
  ⟨rfl, rfl, (c10_zero_treated_missing 2026 pZero).1 rfl,
    ((c10_zero_treated_missing 2026 pZero).2 rfl).2⟩

end Retro
